import Mathlib

/-!
Shallow embedding of the posture-scoring engine of the
shoulder-presentation-eval repository.

Sources embedded here:
* the posture metrics module (`horizontalScore`, `horizontalScoreDetailed`,
  `shoulderTiltScore`, `shoulderSquareness`, `computeAllMetrics`);
* the camera render loop's landmark-smoothing (EMA) block and the rolling
  score buffer (aggregator) block.

JavaScript numbers are modelled by `JSNum`: either NaN, a signed infinity,
or a finite real.  The finite case carries a real number, so float rounding
is idealised, but NaN / infinity propagation — which the source explicitly
tests with `Number.isFinite` and `Number.isNaN`, and emits as sentinels in
the blank debug record — is modelled exactly.
-/

/-- Model of a JavaScript number: NaN, +∞ (`inf true`), −∞ (`inf false`),
or a finite real. -/
inductive JSNum where
  | nan : JSNum
  | inf : Bool → JSNum
  | num : ℝ → JSNum

namespace JSNum

/-- `Number.isFinite`. -/
def isFiniteJS : JSNum → Bool
  | .num _ => true
  | _ => false

/-- `Number.isNaN`. -/
def isNaNJS : JSNum → Bool
  | .nan => true
  | _ => false

/-- JavaScript `+`. -/
noncomputable def jadd : JSNum → JSNum → JSNum
  | .nan, _ => .nan
  | _, .nan => .nan
  | .inf s, .inf t => if s = t then .inf s else .nan
  | .inf s, .num _ => .inf s
  | .num _, .inf t => .inf t
  | .num a, .num b => .num (a + b)

/-- JavaScript `-` (binary). -/
noncomputable def jsub : JSNum → JSNum → JSNum
  | .nan, _ => .nan
  | _, .nan => .nan
  | .inf s, .inf t => if s = t then .nan else .inf s
  | .inf s, .num _ => .inf s
  | .num _, .inf t => .inf (!t)
  | .num a, .num b => .num (a - b)

/-- JavaScript `*`. -/
noncomputable def jmul : JSNum → JSNum → JSNum
  | .nan, _ => .nan
  | _, .nan => .nan
  | .inf s, .inf t => .inf (s == t)
  | .inf s, .num b => if b = 0 then .nan else .inf (s == decide (0 < b))
  | .num a, .inf t => if a = 0 then .nan else .inf (t == decide (0 < a))
  | .num a, .num b => .num (a * b)

/-- JavaScript `/`.  The real `0` plays the role of IEEE `+0`
(no operation in the embedded code produces a negative zero). -/
noncomputable def jdiv : JSNum → JSNum → JSNum
  | .nan, _ => .nan
  | _, .nan => .nan
  | .inf _, .inf _ => .nan
  | .inf s, .num b => .inf (if b = 0 then s else s == decide (0 < b))
  | .num _, .inf _ => .num 0
  | .num a, .num b =>
      if b = 0 then (if a = 0 then .nan else .inf (decide (0 < a)))
      else .num (a / b)

/-- JavaScript `<` (false whenever an operand is NaN). -/
noncomputable def jlt : JSNum → JSNum → Bool
  | .nan, _ => false
  | _, .nan => false
  | .inf true, _ => false
  | .inf false, .inf false => false
  | .inf false, _ => true
  | .num _, .inf t => t
  | .num a, .num b => decide (a < b)

/-- JavaScript `>`. -/
noncomputable def jgt (a b : JSNum) : Bool := jlt b a

/-- JavaScript `<=` (false whenever an operand is NaN). -/
noncomputable def jle : JSNum → JSNum → Bool
  | .nan, _ => false
  | _, .nan => false
  | .inf false, _ => true
  | _, .inf true => true
  | .inf true, _ => false
  | .num _, .inf false => false
  | .num a, .num b => decide (a ≤ b)

/-- `Math.abs`. -/
noncomputable def jabs : JSNum → JSNum
  | .nan => .nan
  | .inf _ => .inf true
  | .num a => .num |a|

/-- `Math.sqrt` (NaN on negative arguments, unlike Mathlib's `Real.sqrt`). -/
noncomputable def jsqrt : JSNum → JSNum
  | .nan => .nan
  | .inf true => .inf true
  | .inf false => .nan
  | .num a => if a < 0 then .nan else .num (Real.sqrt a)

/-- `Math.hypot` on two arguments: +∞ if either argument is infinite (even
when the other is NaN), NaN if either is NaN, else the euclidean norm. -/
noncomputable def jhypot : JSNum → JSNum → JSNum
  | .inf _, _ => .inf true
  | _, .inf _ => .inf true
  | .nan, _ => .nan
  | _, .nan => .nan
  | .num a, .num b => .num (Real.sqrt (a ^ 2 + b ^ 2))

/-- Real-valued two-argument arctangent, matching `Math.atan2` on finite
inputs (with real `0` as `+0`). -/
noncomputable def ratan2 (y x : ℝ) : ℝ :=
  if 0 < x then Real.arctan (y / x)
  else if x < 0 then
    (if 0 ≤ y then Real.arctan (y / x) + Real.pi
     else Real.arctan (y / x) - Real.pi)
  else
    (if 0 < y then Real.pi / 2 else if y < 0 then -(Real.pi / 2) else 0)

/-- `Math.atan2 y x` on `JSNum`. -/
noncomputable def jatan2 : JSNum → JSNum → JSNum
  | .nan, _ => .nan
  | _, .nan => .nan
  | .inf s, .inf t =>
      .num ((if s then 1 else -1) * (if t then Real.pi / 4 else 3 * Real.pi / 4))
  | .inf s, .num _ => .num (if s then Real.pi / 2 else -(Real.pi / 2))
  | .num a, .inf t => .num (if t then 0 else (if 0 ≤ a then Real.pi else -Real.pi))
  | .num a, .num b => .num (ratan2 a b)

end JSNum

open JSNum

/-! ## Data model of the metrics module -/

/-- Minimal landmark as returned by MediaPipe Pose
(`{x, y, z, visibility?}`). -/
structure Landmark where
  x : JSNum
  y : JSNum
  z : JSNum
  visibility : Option JSNum := none

/-- Sparse array: key = landmark index, value = landmark
(`PoseLandmarks` in the source). -/
def PoseLandmarks : Type := ℕ → Option Landmark

def L_SHOULDER : ℕ := 11
def R_SHOULDER : ℕ := 12

def VIS_THRESHOLD : JSNum := .num 0.3
def EPSILON : JSNum := .num 1e-6

/-- `l.visibility ?? 1`. -/
def visOrOne (l : Landmark) : JSNum := l.visibility.getD (.num 1)

/-- `l.visibility ?? 0` (used in the debug snapshots). -/
def visOrZero (l : Landmark) : JSNum := l.visibility.getD (.num 0)

/-- Landmark exists *and* is above `VIS_THRESHOLD`:
`!!l && (l.visibility ?? 1) > VIS_THRESHOLD`. -/
noncomputable def isVisible (l : Option Landmark) : Bool :=
  match l with
  | none => false
  | some l => jgt (visOrOne l) VIS_THRESHOLD

/-- The `left`/`right` snapshot records inside `HorizontalScoreDebug`. -/
structure LRSnapshot where
  x : JSNum
  y : JSNum
  z : JSNum
  v : JSNum

structure HorizontalScoreDebug where
  score : JSNum
  angleDeg : JSNum
  dx : JSNum
  dz : JSNum
  visSym : JSNum
  left : LRSnapshot
  right : LRSnapshot

/-- The `blank()` fallback record. -/
def blankH : HorizontalScoreDebug :=
  { score := .num 0, angleDeg := .num 90, dx := .num 0, dz := .num 0,
    visSym := .num 0,
    left := { x := .nan, y := .nan, z := .nan, v := .num 0 },
    right := { x := .nan, y := .nan, z := .nan, v := .num 0 } }

/-- `horizontalScoreDetailed`.  The catch-all arm mirrors the source's
visibility guard: `isVisible(undefined)` is false there, so a missing
shoulder also yields `blank()`. -/
noncomputable def horizontalScoreDetailed (lm : PoseLandmarks) :
    HorizontalScoreDebug :=
  match lm L_SHOULDER, lm R_SHOULDER with
  | some ls, some rs =>
      if !(isVisible (some ls)) || !(isVisible (some rs)) then blankH
      else if !(isFiniteJS ls.z) || !(isFiniteJS rs.z) then blankH
      else
        let dx := jsub ls.x rs.x
        let dz := jsub ls.z rs.z
        let len := jhypot dx dz
        if jlt len EPSILON then blankH
        else
          let absDx := jabs dx
          let absDz := jabs dz
          let geom := jdiv absDx len
          let visSym := jsub (.num 1) (jabs (jsub (visOrOne ls) (visOrOne rs)))
          let angle := jdiv (jmul (jatan2 absDz absDx) (.num 180)) (.num Real.pi)
          { score := jmul geom visSym,
            angleDeg := angle,
            dx := absDx,
            dz := absDz,
            visSym := visSym,
            left := { x := ls.x, y := ls.y, z := ls.z, v := visOrZero ls },
            right := { x := rs.x, y := rs.y, z := rs.z, v := visOrZero rs } }
  | _, _ => blankH

/-- `horizontalScore` — simple wrapper. -/
noncomputable def horizontalScore (lm : PoseLandmarks) : JSNum :=
  (horizontalScoreDetailed lm).score

/-- `shoulderTiltScore`.  As above, the catch-all arm is the source's
visibility guard applied to a missing shoulder. -/
noncomputable def shoulderTiltScore (lm : PoseLandmarks) : JSNum :=
  match lm L_SHOULDER, lm R_SHOULDER with
  | some ls, some rs =>
      if !(isVisible (some ls)) || !(isVisible (some rs)) then .num 0
      else
        let dx := jsub ls.x rs.x
        let dy := jsub ls.y rs.y
        if jlt (jabs dx) EPSILON && jlt (jabs dy) EPSILON then .num 0
        else jsub (.num 1)
          (jdiv (jatan2 (jabs dy) (jabs dx)) (.num (Real.pi / 2)))
  | _, _ => .num 0

/-- `shoulderSquareness`: geometric mean of the two scores, 0 if NaN. -/
noncomputable def shoulderSquareness (lm : PoseLandmarks) : JSNum :=
  let sYaw := horizontalScore lm
  let sRoll := shoulderTiltScore lm
  let q := jsqrt (jmul sYaw sRoll)
  if isNaNJS q then .num 0 else q

/-- Result of `computeAllMetrics`: exactly the two exposed keys (the
combined squareness score is commented out in the source). -/
structure ScoreResult where
  horizontalScore : JSNum
  shoulderTiltScore : JSNum

/-- `computeAllMetrics`. -/
noncomputable def computeAllMetrics (lm : PoseLandmarks) : ScoreResult :=
  let sYaw := horizontalScore lm
  let sRoll := shoulderTiltScore lm
  { horizontalScore := sYaw, shoulderTiltScore := sRoll }

/-! ## Landmark smoother (EMA block of the camera render loop)

State: `smoothedPoseRef.current`, `none` right after a reset.  One call of
the render loop with a detected pose `raw` runs the block

  if (!state) state = raw
  else for (idx in raw) {
    p = raw[idx]; s = state[idx] ?? p;
    s.x = ALPHA*p.x + (1-ALPHA)*s.x;  (same y, z; visibility untouched)
    state[idx] = s
  }

and then feeds the whole updated state to the scorers.  `smootherUpdate`
returns that updated state (= the output pose of the step). -/

def SMOOTH_ALPHA : ℝ := 0.2

/-- One EMA step on a single landmark: `p` is the raw landmark, `s` the
previous smoothed one.  Only x, y, z are assigned in the source loop;
the `visibility` field of `s` is left as it was. -/
noncomputable def emaLandmark (p s : Landmark) : Landmark :=
  { x := jadd (jmul (.num SMOOTH_ALPHA) p.x) (jmul (.num (1 - SMOOTH_ALPHA)) s.x),
    y := jadd (jmul (.num SMOOTH_ALPHA) p.y) (jmul (.num (1 - SMOOTH_ALPHA)) s.y),
    z := jadd (jmul (.num SMOOTH_ALPHA) p.z) (jmul (.num (1 - SMOOTH_ALPHA)) s.z),
    visibility := s.visibility }

/-- One render-loop smoothing step: state before (`none` = just reset),
raw detected pose in; full updated smoothed state out. -/
noncomputable def smootherUpdate (st : Option PoseLandmarks)
    (raw : PoseLandmarks) : PoseLandmarks :=
  match st with
  | none => raw
  | some s => fun idx =>
      match raw idx with
      | none => s idx
      | some p => some (emaLandmark p ((s idx).getD p))

/-- Folding a sequence of raw frames through the smoother. -/
noncomputable def smootherRun (st : Option PoseLandmarks)
    (frames : List PoseLandmarks) : Option PoseLandmarks :=
  frames.foldl (fun st f => some (smootherUpdate st f)) st

/-! ## Score aggregator (rolling buffer block of the render loop)

  buffer[k] = buffer[k] ?? []; buffer[k].push(v);
  if (buffer[k].length > BUFFER_SIZE) buffer[k].shift();
  avgScores[k] = arr.reduce((a,b) => a+b, 0) / arr.length

Scores reaching this block are plain numbers; they are modelled as reals. -/

def BUFFER_SIZE : ℕ := 30

/-- One `observe` on a single metric's buffer: push, then shift if over
capacity (`List.tail` is JavaScript's `shift()`). -/
def observeBuf (buf : List ℝ) (v : ℝ) : List ℝ :=
  let b := buf ++ [v]
  if BUFFER_SIZE < b.length then b.tail else b

/-- The per-metric-name buffer map `Record<string, number[]>`. -/
def ScoreBuffers : Type := String → Option (List ℝ)

def emptyBufs : ScoreBuffers := fun _ => none

/-- One `observe(metricName, rawValue)` on the buffer map: the buffer is
created lazily (`buffer[k] ?? []`), then pushed/shifted. -/
def observe (bufs : ScoreBuffers) (k : String) (v : ℝ) : ScoreBuffers :=
  fun k' => if k' = k then some (observeBuf ((bufs k).getD []) v) else bufs k'

/-- `arr.reduce((a, b) => a + b, 0) / arr.length`. -/
noncomputable def aggMean (arr : List ℝ) : ℝ :=
  (arr.foldl (fun a b => a + b) 0) / (arr.length : ℝ)

/-! ## Reduction lemmas for the JSNum operations on finite values -/

@[simp] lemma jadd_num_num (a b : ℝ) : jadd (.num a) (.num b) = .num (a + b) := rfl

@[simp] lemma jsub_num_num (a b : ℝ) : jsub (.num a) (.num b) = .num (a - b) := rfl

@[simp] lemma jmul_num_num (a b : ℝ) : jmul (.num a) (.num b) = .num (a * b) := rfl

@[simp] lemma jabs_num (a : ℝ) : jabs (.num a) = .num |a| := rfl

@[simp] lemma jlt_num_num (a b : ℝ) : jlt (.num a) (.num b) = decide (a < b) := rfl

@[simp] lemma jle_num_num (a b : ℝ) : jle (.num a) (.num b) = decide (a ≤ b) := rfl

@[simp] lemma isFiniteJS_num (a : ℝ) : isFiniteJS (.num a) = true := rfl

@[simp] lemma isFiniteJS_nan : isFiniteJS .nan = false := rfl

@[simp] lemma isFiniteJS_inf (s : Bool) : isFiniteJS (.inf s) = false := rfl

@[simp] lemma isNaNJS_num (a : ℝ) : isNaNJS (.num a) = false := rfl

@[simp] lemma jhypot_num_num (a b : ℝ) :
    jhypot (.num a) (.num b) = .num (Real.sqrt (a ^ 2 + b ^ 2)) := rfl

@[simp] lemma jatan2_num_num (a b : ℝ) :
    jatan2 (.num a) (.num b) = .num (ratan2 a b) := rfl

lemma jdiv_num_num_of_ne (a b : ℝ) (hb : b ≠ 0) :
    jdiv (.num a) (.num b) = .num (a / b) := by
  simp [jdiv, hb]

lemma jsqrt_num_of_nonneg (a : ℝ) (ha : 0 ≤ a) :
    jsqrt (.num a) = .num (Real.sqrt a) := by
  simp [jsqrt, not_lt.mpr ha]

lemma isVisible_some_num (l : Landmark) (v : ℝ)
    (hv : visOrOne l = .num v) (h : 0.3 < v) : isVisible (some l) = true := by
  simp [isVisible, jgt, hv, VIS_THRESHOLD, h]

/-! ## Branch lemmas for horizontalScoreDetailed -/

lemma horizontalScoreDetailed_blank_of_not_visible (lm : PoseLandmarks)
    (h : isVisible (lm L_SHOULDER) = false ∨ isVisible (lm R_SHOULDER) = false) :
    horizontalScoreDetailed lm = blankH := by
  rcases hL : lm L_SHOULDER with _ | l <;> rcases hR : lm R_SHOULDER with _ | r <;>
    simp only [horizontalScoreDetailed, hL, hR]
  rw [hL, hR] at h
  rcases h with h | h <;> simp [h]

lemma horizontalScoreDetailed_blank_of_nonfinite (lm : PoseLandmarks)
    (l r : Landmark) (hL : lm L_SHOULDER = some l) (hR : lm R_SHOULDER = some r)
    (h : isFiniteJS l.z = false ∨ isFiniteJS r.z = false) :
    horizontalScoreDetailed lm = blankH := by
  simp only [horizontalScoreDetailed, hL, hR]
  rcases h with h | h <;>
    rcases hvl : isVisible (some l) <;> rcases hvr : isVisible (some r) <;>
    simp [h]

lemma horizontalScoreDetailed_blank_of_degenerate (lm : PoseLandmarks)
    (l r : Landmark) (hL : lm L_SHOULDER = some l) (hR : lm R_SHOULDER = some r)
    (h : jlt (jhypot (jsub l.x r.x) (jsub l.z r.z)) EPSILON = true) :
    horizontalScoreDetailed lm = blankH := by
  simp only [horizontalScoreDetailed, hL, hR]
  rcases hvl : isVisible (some l) <;> rcases hvr : isVisible (some r) <;>
    rcases hfl : isFiniteJS l.z <;> rcases hfr : isFiniteJS r.z <;>
    simp [h]

lemma horizontalScoreDetailed_main (lm : PoseLandmarks) (l r : Landmark)
    (hL : lm L_SHOULDER = some l) (hR : lm R_SHOULDER = some r)
    (hvl : isVisible (some l) = true) (hvr : isVisible (some r) = true)
    (hfl : isFiniteJS l.z = true) (hfr : isFiniteJS r.z = true)
    (hlen : jlt (jhypot (jsub l.x r.x) (jsub l.z r.z)) EPSILON = false) :
    horizontalScoreDetailed lm =
      { score := jmul
          (jdiv (jabs (jsub l.x r.x)) (jhypot (jsub l.x r.x) (jsub l.z r.z)))
          (jsub (.num 1) (jabs (jsub (visOrOne l) (visOrOne r)))),
        angleDeg := jdiv
          (jmul (jatan2 (jabs (jsub l.z r.z)) (jabs (jsub l.x r.x))) (.num 180))
          (.num Real.pi),
        dx := jabs (jsub l.x r.x),
        dz := jabs (jsub l.z r.z),
        visSym := jsub (.num 1) (jabs (jsub (visOrOne l) (visOrOne r))),
        left := { x := l.x, y := l.y, z := l.z, v := visOrZero l },
        right := { x := r.x, y := r.y, z := r.z, v := visOrZero r } } := by
  simp [horizontalScoreDetailed, hL, hR, hvl, hvr, hfl, hfr, hlen]

/-! ## Branch lemmas for shoulderTiltScore -/

lemma shoulderTiltScore_zero_of_not_visible (lm : PoseLandmarks)
    (h : isVisible (lm L_SHOULDER) = false ∨ isVisible (lm R_SHOULDER) = false) :
    shoulderTiltScore lm = .num 0 := by
  rcases hL : lm L_SHOULDER with _ | l <;> rcases hR : lm R_SHOULDER with _ | r <;>
    simp only [shoulderTiltScore, hL, hR]
  rw [hL, hR] at h
  rcases h with h | h <;> simp [h]

lemma shoulderTiltScore_zero_of_degenerate (lm : PoseLandmarks)
    (l r : Landmark) (hL : lm L_SHOULDER = some l) (hR : lm R_SHOULDER = some r)
    (hdx : jlt (jabs (jsub l.x r.x)) EPSILON = true)
    (hdy : jlt (jabs (jsub l.y r.y)) EPSILON = true) :
    shoulderTiltScore lm = .num 0 := by
  simp only [shoulderTiltScore, hL, hR]
  rcases hvl : isVisible (some l) <;> rcases hvr : isVisible (some r) <;>
    simp [hdx, hdy]

/-! ## Range facts about ratan2 on the nonnegative quadrant -/

lemma ratan2_nonneg {y x : ℝ} (hy : 0 ≤ y) (hx : 0 ≤ x) : 0 ≤ ratan2 y x := by
  have hπ := Real.pi_pos
  unfold ratan2
  split_ifs with h1 h2 h3 h4 <;>
    first
      | (rw [show (0 : ℝ) = Real.arctan 0 from Real.arctan_zero.symm]
         exact Real.arctan_strictMono.monotone (div_nonneg hy h1.le))
      | linarith

lemma ratan2_le_pi_div_two {y x : ℝ} (hy : 0 ≤ y) (hx : 0 ≤ x) :
    ratan2 y x ≤ Real.pi / 2 := by
  have hπ := Real.pi_pos
  unfold ratan2
  split_ifs with h1 h2 h3 h4 <;>
    first
      | exact (Real.arctan_lt_pi_div_two _).le
      | linarith

/-! ## Validity of inputs and the unit-interval predicate -/

/-- The output is a finite number (so not NaN) lying in the unit interval. -/
def inUnit (v : JSNum) : Prop := ∃ r : ℝ, v = .num r ∧ 0 ≤ r ∧ r ≤ 1

/-- A landmark with finite x, y, z and (when present) a finite visibility in
the unit interval — the claim C1 hypothesis on present landmarks. -/
def validLandmark (l : Landmark) : Prop :=
  (∃ a, l.x = JSNum.num a) ∧ (∃ a, l.y = JSNum.num a) ∧
  (∃ a, l.z = JSNum.num a) ∧
  (∀ v, l.visibility = some v → ∃ a, v = JSNum.num a ∧ 0 ≤ a ∧ a ≤ 1)

/-- Every present landmark of the pose is valid. -/
def validPose (lm : PoseLandmarks) : Prop :=
  ∀ i l, lm i = some l → validLandmark l

lemma visOrOne_of_valid {l : Landmark} (h : validLandmark l) :
    ∃ a, visOrOne l = JSNum.num a ∧ 0 ≤ a ∧ 0 ≤ (1 : ℝ) - a := by
  rcases hv : l.visibility with _ | v
  · exact ⟨1, by simp [visOrOne, hv], by norm_num, by norm_num⟩
  · obtain ⟨a, ha, h0, h1⟩ := h.2.2.2 v hv
    exact ⟨a, by simp [visOrOne, hv, ha], h0, by linarith⟩

lemma shoulderTiltScore_main (lm : PoseLandmarks) (l r : Landmark)
    (hL : lm L_SHOULDER = some l) (hR : lm R_SHOULDER = some r)
    (hvl : isVisible (some l) = true) (hvr : isVisible (some r) = true)
    (hd : ¬(jlt (jabs (jsub l.x r.x)) EPSILON = true ∧
            jlt (jabs (jsub l.y r.y)) EPSILON = true)) :
    shoulderTiltScore lm =
      jsub (.num 1)
        (jdiv (jatan2 (jabs (jsub l.y r.y)) (jabs (jsub l.x r.x)))
          (.num (Real.pi / 2))) := by
  simp only [shoulderTiltScore, hL, hR, hvl, hvr]
  rcases h1 : jlt (jabs (jsub l.x r.x)) EPSILON <;>
    rcases h2 : jlt (jabs (jsub l.y r.y)) EPSILON <;>
    simp_all

lemma horizontalScore_main (lm : PoseLandmarks) (l r : Landmark)
    (hL : lm L_SHOULDER = some l) (hR : lm R_SHOULDER = some r)
    (hvl : isVisible (some l) = true) (hvr : isVisible (some r) = true)
    (hfl : isFiniteJS l.z = true) (hfr : isFiniteJS r.z = true)
    (hlen : jlt (jhypot (jsub l.x r.x) (jsub l.z r.z)) EPSILON = false) :
    horizontalScore lm =
      jmul (jdiv (jabs (jsub l.x r.x)) (jhypot (jsub l.x r.x) (jsub l.z r.z)))
        (jsub (.num 1) (jabs (jsub (visOrOne l) (visOrOne r)))) := by
  rw [horizontalScore,
    horizontalScoreDetailed_main lm l r hL hR hvl hvr hfl hfr hlen]

/-! ## The three scores stay inside the unit interval on valid input -/

lemma inUnit_zero : inUnit (JSNum.num 0) := ⟨0, rfl, le_refl 0, zero_le_one⟩

lemma horizontalScore_inUnit (lm : PoseLandmarks) (h : validPose lm) :
    inUnit (horizontalScore lm) := by
  rcases hL : lm L_SHOULDER with _ | l
  · rw [horizontalScore, horizontalScoreDetailed_blank_of_not_visible lm
      (Or.inl (by rw [hL]; rfl))]
    exact inUnit_zero
  rcases hR : lm R_SHOULDER with _ | r
  · rw [horizontalScore, horizontalScoreDetailed_blank_of_not_visible lm
      (Or.inr (by rw [hR]; rfl))]
    exact inUnit_zero
  obtain ⟨⟨lx, hlx⟩, ⟨ly, hly⟩, ⟨lz, hlz⟩, -⟩ := h L_SHOULDER l hL
  obtain ⟨⟨rx, hrx⟩, ⟨ry, hry⟩, ⟨rz, hrz⟩, -⟩ := h R_SHOULDER r hR
  rcases hvl : isVisible (some l)
  · rw [horizontalScore, horizontalScoreDetailed_blank_of_not_visible lm
      (Or.inl (by rw [hL]; exact hvl))]
    exact inUnit_zero
  rcases hvr : isVisible (some r)
  · rw [horizontalScore, horizontalScoreDetailed_blank_of_not_visible lm
      (Or.inr (by rw [hR]; exact hvr))]
    exact inUnit_zero
  have hfl : isFiniteJS l.z = true := by rw [hlz]; rfl
  have hfr : isFiniteJS r.z = true := by rw [hrz]; rfl
  rcases hlen : jlt (jhypot (jsub l.x r.x) (jsub l.z r.z)) EPSILON
  case true =>
    rw [horizontalScore,
      horizontalScoreDetailed_blank_of_degenerate lm l r hL hR hlen]
    exact inUnit_zero
  case false =>
  rw [horizontalScore_main lm l r hL hR hvl hvr hfl hfr hlen]
  obtain ⟨vl, hv1, hv1a, hv1b⟩ := visOrOne_of_valid (h L_SHOULDER l hL)
  obtain ⟨vr, hv2, hv2a, hv2b⟩ := visOrOne_of_valid (h R_SHOULDER r hR)
  rw [hlx, hrx, hlz, hrz] at hlen ⊢
  rw [hv1, hv2]
  simp only [jsub_num_num, jhypot_num_num, jabs_num, jlt_num_num, EPSILON]
    at hlen ⊢
  have hnot : ¬(Real.sqrt ((lx - rx) ^ 2 + (lz - rz) ^ 2) < 1e-6) :=
    of_decide_eq_false hlen
  have hs : (0 : ℝ) < Real.sqrt ((lx - rx) ^ 2 + (lz - rz) ^ 2) :=
    lt_of_lt_of_le (by norm_num) (not_lt.mp hnot)
  rw [jdiv_num_num_of_ne _ _ hs.ne', jmul_num_num]
  have habs : |lx - rx| ≤ Real.sqrt ((lx - rx) ^ 2 + (lz - rz) ^ 2) := by
    calc |lx - rx| = Real.sqrt ((lx - rx) ^ 2) := (Real.sqrt_sq_eq_abs _).symm
    _ ≤ _ := Real.sqrt_le_sqrt (by nlinarith [sq_nonneg (lz - rz)])
  have hvv : |vl - vr| ≤ 1 := abs_le.mpr ⟨by linarith, by linarith⟩
  refine ⟨_, rfl, ?_, ?_⟩
  · have := abs_nonneg (vl - vr)
    have := abs_nonneg (lx - rx)
    have := div_nonneg (abs_nonneg (lx - rx)) hs.le
    nlinarith
  · have hg1 : |lx - rx| / Real.sqrt ((lx - rx) ^ 2 + (lz - rz) ^ 2) ≤ 1 :=
      (div_le_one hs).mpr habs
    have hg0 : 0 ≤ |lx - rx| / Real.sqrt ((lx - rx) ^ 2 + (lz - rz) ^ 2) :=
      div_nonneg (abs_nonneg _) hs.le
    have := abs_nonneg (vl - vr)
    nlinarith

lemma shoulderTiltScore_inUnit (lm : PoseLandmarks) (h : validPose lm) :
    inUnit (shoulderTiltScore lm) := by
  rcases hL : lm L_SHOULDER with _ | l
  · rw [shoulderTiltScore_zero_of_not_visible lm (Or.inl (by rw [hL]; rfl))]
    exact inUnit_zero
  rcases hR : lm R_SHOULDER with _ | r
  · rw [shoulderTiltScore_zero_of_not_visible lm (Or.inr (by rw [hR]; rfl))]
    exact inUnit_zero
  obtain ⟨⟨lx, hlx⟩, ⟨ly, hly⟩, ⟨lz, hlz⟩, -⟩ := h L_SHOULDER l hL
  obtain ⟨⟨rx, hrx⟩, ⟨ry, hry⟩, ⟨rz, hrz⟩, -⟩ := h R_SHOULDER r hR
  rcases hvl : isVisible (some l)
  · rw [shoulderTiltScore_zero_of_not_visible lm (Or.inl (by rw [hL]; exact hvl))]
    exact inUnit_zero
  rcases hvr : isVisible (some r)
  · rw [shoulderTiltScore_zero_of_not_visible lm (Or.inr (by rw [hR]; exact hvr))]
    exact inUnit_zero
  by_cases hd : jlt (jabs (jsub l.x r.x)) EPSILON = true ∧
      jlt (jabs (jsub l.y r.y)) EPSILON = true
  · rw [shoulderTiltScore_zero_of_degenerate lm l r hL hR hd.1 hd.2]
    exact inUnit_zero
  rw [shoulderTiltScore_main lm l r hL hR hvl hvr hd]
  rw [hlx, hrx, hly, hry]
  simp only [jsub_num_num, jabs_num, jatan2_num_num]
  have hπ := Real.pi_pos
  have hθ0 : 0 ≤ ratan2 |ly - ry| |lx - rx| :=
    ratan2_nonneg (abs_nonneg _) (abs_nonneg _)
  have hθ1 : ratan2 |ly - ry| |lx - rx| ≤ Real.pi / 2 :=
    ratan2_le_pi_div_two (abs_nonneg _) (abs_nonneg _)
  rw [jdiv_num_num_of_ne _ _ (by positivity : Real.pi / 2 ≠ 0), jsub_num_num]
  refine ⟨_, rfl, ?_, ?_⟩
  · have : ratan2 |ly - ry| |lx - rx| / (Real.pi / 2) ≤ 1 :=
      (div_le_one (by positivity)).mpr hθ1
    linarith
  · have : 0 ≤ ratan2 |ly - ry| |lx - rx| / (Real.pi / 2) :=
      div_nonneg hθ0 (by positivity)
    linarith

lemma shoulderSquareness_inUnit (lm : PoseLandmarks) (h : validPose lm) :
    inUnit (shoulderSquareness lm) := by
  obtain ⟨a, ha, ha0, ha1⟩ := horizontalScore_inUnit lm h
  obtain ⟨b, hb, hb0, hb1⟩ := shoulderTiltScore_inUnit lm h
  have hq := jsqrt_num_of_nonneg (a * b) (mul_nonneg ha0 hb0)
  simp only [shoulderSquareness, ha, hb, jmul_num_num, hq, isNaNJS_num,
    Bool.false_eq_true, if_false]
  exact ⟨_, rfl, Real.sqrt_nonneg _, Real.sqrt_le_one.mpr (by nlinarith)⟩

/-! ## Concrete example poses -/

/-- The spec's worked example, left shoulder: L = (0.4, 0.5, 0.0, v=1). -/
noncomputable def exampleL : Landmark :=
  { x := .num 0.4, y := .num 0.5, z := .num 0, visibility := some (.num 1) }

/-- The spec's worked example, right shoulder: R = (0.6, 0.5, 0.0, v=1). -/
noncomputable def exampleR : Landmark :=
  { x := .num 0.6, y := .num 0.5, z := .num 0, visibility := some (.num 1) }

/-- The spec's worked example pose: shoulders at the same height, both
fully visible, zero depth gap. -/
noncomputable def examplePose : PoseLandmarks := fun i =>
  if i = L_SHOULDER then some exampleL
  else if i = R_SHOULDER then some exampleR
  else none

lemma examplePose_valid : validPose examplePose := by
  intro i l hl
  unfold examplePose at hl
  split_ifs at hl with h1 h2
  · simp only [Option.some.injEq] at hl
    subst hl
    refine ⟨⟨_, rfl⟩, ⟨_, rfl⟩, ⟨_, rfl⟩, ?_⟩
    intro v hv
    simp only [exampleL, Option.some.injEq] at hv
    subst hv
    exact ⟨1, rfl, by norm_num, by norm_num⟩
  · simp only [Option.some.injEq] at hl
    subst hl
    refine ⟨⟨_, rfl⟩, ⟨_, rfl⟩, ⟨_, rfl⟩, ?_⟩
    intro v hv
    simp only [exampleR, Option.some.injEq] at hv
    subst hv
    exact ⟨1, rfl, by norm_num, by norm_num⟩

/-! ## Claim theorems -/

/-- C1: for every pose whose present landmarks have finite x, y, z and a
visibility in [0,1], each of `horizontalScore`, `shoulderTiltScore` and
`shoulderSquareness` returns a finite score in [0,1] — never NaN. -/
theorem scores_always_in_unit_interval (lm : PoseLandmarks)
    (h : validPose lm) :
    inUnit (horizontalScore lm) ∧ inUnit (shoulderTiltScore lm) ∧
      inUnit (shoulderSquareness lm) :=
  ⟨horizontalScore_inUnit lm h, shoulderTiltScore_inUnit lm h,
    shoulderSquareness_inUnit lm h⟩

/-- Witness for C1 at the spec's example pose. -/
theorem scores_always_in_unit_interval_witness :
    validPose examplePose ∧
      (inUnit (horizontalScore examplePose) ∧
        inUnit (shoulderTiltScore examplePose) ∧
        inUnit (shoulderSquareness examplePose)) :=
  ⟨examplePose_valid,
    scores_always_in_unit_interval examplePose examplePose_valid⟩

/-- C7: `computeAllMetrics` returns exactly the two keys `horizontalScore`
and `shoulderTiltScore` (the combined squareness metric is not included:
the `ScoreResult` record has exactly these two fields), their values are
`horizontalScore lm` and `shoulderTiltScore lm`, and `horizontalScore lm`
itself is the `score` field of `horizontalScoreDetailed lm`. -/
theorem computeAllMetrics_exactly_two_scores (lm : PoseLandmarks) :
    computeAllMetrics lm =
      { horizontalScore := horizontalScore lm,
        shoulderTiltScore := shoulderTiltScore lm } ∧
    horizontalScore lm = (horizontalScoreDetailed lm).score :=
  ⟨rfl, rfl⟩

/-- C10: the scoring engine reads no landmark index other than 11 and 12 —
two poses agreeing on those two indices get identical results from every
scoring entry point. -/
theorem scores_depend_only_on_shoulder_indices (lm1 lm2 : PoseLandmarks)
    (h11 : lm1 L_SHOULDER = lm2 L_SHOULDER)
    (h12 : lm1 R_SHOULDER = lm2 R_SHOULDER) :
    horizontalScoreDetailed lm1 = horizontalScoreDetailed lm2 ∧
    horizontalScore lm1 = horizontalScore lm2 ∧
    shoulderTiltScore lm1 = shoulderTiltScore lm2 ∧
    shoulderSquareness lm1 = shoulderSquareness lm2 ∧
    computeAllMetrics lm1 = computeAllMetrics lm2 := by
  have hd : horizontalScoreDetailed lm1 = horizontalScoreDetailed lm2 := by
    unfold horizontalScoreDetailed
    rw [h11, h12]
  have ht : shoulderTiltScore lm1 = shoulderTiltScore lm2 := by
    unfold shoulderTiltScore
    rw [h11, h12]
  have hh : horizontalScore lm1 = horizontalScore lm2 := by
    unfold horizontalScore
    rw [hd]
  refine ⟨hd, hh, ht, ?_, ?_⟩
  · unfold shoulderSquareness
    rw [hh, ht]
  · unfold computeAllMetrics
    rw [hh, ht]

/-- The pose with no landmarks at all (no detection). -/
def emptyPose : PoseLandmarks := fun _ => none

/-- C2's degenerate-input condition: a shoulder is absent, or has
visibility ≤ 0.3 (JS comparison, default visibility 1), or a depth is not
finite, or the shoulders coincide in the X–Z plane
(`hypot(Lx−Rx, Lz−Rz) < 1e-6`). -/
def blankCond (lm : PoseLandmarks) : Prop :=
  lm L_SHOULDER = none ∨ lm R_SHOULDER = none ∨
  (∃ l, lm L_SHOULDER = some l ∧ jle (visOrOne l) VIS_THRESHOLD = true) ∨
  (∃ r, lm R_SHOULDER = some r ∧ jle (visOrOne r) VIS_THRESHOLD = true) ∨
  (∃ l r, lm L_SHOULDER = some l ∧ lm R_SHOULDER = some r ∧
    (isFiniteJS l.z = false ∨ isFiniteJS r.z = false)) ∨
  (∃ l r, lm L_SHOULDER = some l ∧ lm R_SHOULDER = some r ∧
    jlt (jhypot (jsub l.x r.x) (jsub l.z r.z)) EPSILON = true)

lemma jlt_eq_false_of_jle {a b : JSNum} (h : jle a b = true) :
    jlt b a = false := by
  rcases a with _ | s | a
  · simp [jle] at h
  · cases s
    · rcases b with _ | t | b
      · simp [jle] at h
      · cases t <;> rfl
      · rfl
    · rcases b with _ | t | b
      · simp [jle] at h
      · cases t
        · simp [jle] at h
        · rfl
      · simp [jle] at h
  · rcases b with _ | t | b
    · simp [jle] at h
    · cases t
      · simp [jle] at h
      · rfl
    · simp only [jle_num_num, decide_eq_true_eq] at h
      simp only [jlt_num_num, decide_eq_false_iff_not, not_lt]
      exact h

/-- C2: whenever a shoulder is absent or at visibility ≤ 0.3, or a depth is
not finite, or the shoulders coincide in the X–Z plane,
`horizontalScoreDetailed` returns exactly the blank record
(score 0, angle 90°, NaN landmark echoes).  The function is total, so no
error can be raised. -/
theorem horizontalScoreDetailed_blank_on_bad_input (lm : PoseLandmarks)
    (h : blankCond lm) : horizontalScoreDetailed lm = blankH := by
  rcases h with h | h | ⟨l, hL, hle⟩ | ⟨r, hR, hle⟩ |
    ⟨l, r, hL, hR, hz⟩ | ⟨l, r, hL, hR, hlen⟩
  · exact horizontalScoreDetailed_blank_of_not_visible lm
      (Or.inl (by rw [h]; rfl))
  · exact horizontalScoreDetailed_blank_of_not_visible lm
      (Or.inr (by rw [h]; rfl))
  · refine horizontalScoreDetailed_blank_of_not_visible lm (Or.inl ?_)
    rw [hL]
    exact jlt_eq_false_of_jle hle
  · refine horizontalScoreDetailed_blank_of_not_visible lm (Or.inr ?_)
    rw [hR]
    exact jlt_eq_false_of_jle hle
  · exact horizontalScoreDetailed_blank_of_nonfinite lm l r hL hR hz
  · exact horizontalScoreDetailed_blank_of_degenerate lm l r hL hR hlen

/-- Witness for C2: a frame with no detected landmarks yields the blank
record. -/
theorem horizontalScoreDetailed_blank_on_bad_input_witness :
    blankCond emptyPose ∧ horizontalScoreDetailed emptyPose = blankH :=
  ⟨Or.inl rfl,
    horizontalScoreDetailed_blank_on_bad_input emptyPose (Or.inl rfl)⟩

/-! ## Sign-symmetry helpers for the left/right swap claim -/

/-- JavaScript unary minus. -/
noncomputable def jneg : JSNum → JSNum
  | .nan => .nan
  | .inf s => .inf (!s)
  | .num a => .num (-a)

lemma jsub_swap (a b : JSNum) : jsub b a = jneg (jsub a b) := by
  rcases a with _ | s | a <;> rcases b with _ | t | b <;>
    simp only [jsub, jneg, neg_sub, Bool.not_not]
  by_cases hst : s = t
  · subst hst
    simp [jsub, jneg]
  · have hts : ¬(t = s) := fun h => hst h.symm
    simp only [jsub, jneg, if_neg hst, if_neg hts]
    cases s <;> cases t <;> simp_all

lemma jabs_jneg (a : JSNum) : jabs (jneg a) = jabs a := by
  rcases a with _ | s | a <;> simp [jneg, jabs, abs_neg]

lemma jhypot_jneg_jneg (a b : JSNum) :
    jhypot (jneg a) (jneg b) = jhypot a b := by
  rcases a with _ | s | a <;> rcases b with _ | t | b <;>
    simp [jneg, jhypot, neg_pow]

lemma jabs_jsub_comm (a b : JSNum) : jabs (jsub a b) = jabs (jsub b a) := by
  rw [jsub_swap, jabs_jneg]

lemma jhypot_jsub_comm (a b c d : JSNum) :
    jhypot (jsub b a) (jsub d c) = jhypot (jsub a b) (jsub c d) := by
  rw [jsub_swap a b, jsub_swap c d, jhypot_jneg_jneg]

/-- The pose with the landmarks stored at indices 11 and 12 exchanged
(positions and visibilities together). -/
def swapLR (lm : PoseLandmarks) : PoseLandmarks := fun i =>
  if i = L_SHOULDER then lm R_SHOULDER
  else if i = R_SHOULDER then lm L_SHOULDER
  else lm i

lemma shoulderTiltScore_swap (lm : PoseLandmarks) :
    shoulderTiltScore (swapLR lm) = shoulderTiltScore lm := by
  have hsw1 : swapLR lm L_SHOULDER = lm R_SHOULDER := rfl
  have hsw2 : swapLR lm R_SHOULDER = lm L_SHOULDER := rfl
  rcases hL : lm L_SHOULDER with _ | l
  · rw [shoulderTiltScore_zero_of_not_visible (swapLR lm)
        (Or.inr (by rw [hsw2, hL]; rfl)),
      shoulderTiltScore_zero_of_not_visible lm (Or.inl (by rw [hL]; rfl))]
  rcases hR : lm R_SHOULDER with _ | r
  · rw [shoulderTiltScore_zero_of_not_visible (swapLR lm)
        (Or.inl (by rw [hsw1, hR]; rfl)),
      shoulderTiltScore_zero_of_not_visible lm (Or.inr (by rw [hR]; rfl))]
  have hswL : swapLR lm L_SHOULDER = some r := hsw1.trans hR
  have hswR : swapLR lm R_SHOULDER = some l := hsw2.trans hL
  rcases hvl : isVisible (some l)
  · rw [shoulderTiltScore_zero_of_not_visible (swapLR lm)
        (Or.inr (by rw [hswR]; exact hvl)),
      shoulderTiltScore_zero_of_not_visible lm (Or.inl (by rw [hL]; exact hvl))]
  rcases hvr : isVisible (some r)
  · rw [shoulderTiltScore_zero_of_not_visible (swapLR lm)
        (Or.inl (by rw [hswL]; exact hvr)),
      shoulderTiltScore_zero_of_not_visible lm (Or.inr (by rw [hR]; exact hvr))]
  by_cases hd : jlt (jabs (jsub l.x r.x)) EPSILON = true ∧
      jlt (jabs (jsub l.y r.y)) EPSILON = true
  · rw [shoulderTiltScore_zero_of_degenerate (swapLR lm) r l hswL hswR
        (by rw [jabs_jsub_comm r.x l.x]; exact hd.1)
        (by rw [jabs_jsub_comm r.y l.y]; exact hd.2),
      shoulderTiltScore_zero_of_degenerate lm l r hL hR hd.1 hd.2]
  · have hd' : ¬(jlt (jabs (jsub r.x l.x)) EPSILON = true ∧
        jlt (jabs (jsub r.y l.y)) EPSILON = true) := by
      rw [jabs_jsub_comm r.x l.x, jabs_jsub_comm r.y l.y]
      exact hd
    rw [shoulderTiltScore_main (swapLR lm) r l hswL hswR hvr hvl hd',
      shoulderTiltScore_main lm l r hL hR hvl hvr hd,
      jabs_jsub_comm r.x l.x, jabs_jsub_comm r.y l.y]

lemma horizontalScore_swap (lm : PoseLandmarks) :
    horizontalScore (swapLR lm) = horizontalScore lm := by
  have hsw1 : swapLR lm L_SHOULDER = lm R_SHOULDER := rfl
  have hsw2 : swapLR lm R_SHOULDER = lm L_SHOULDER := rfl
  rcases hL : lm L_SHOULDER with _ | l
  · rw [horizontalScore, horizontalScore,
      horizontalScoreDetailed_blank_of_not_visible (swapLR lm)
        (Or.inr (by rw [hsw2, hL]; rfl)),
      horizontalScoreDetailed_blank_of_not_visible lm
        (Or.inl (by rw [hL]; rfl))]
  rcases hR : lm R_SHOULDER with _ | r
  · rw [horizontalScore, horizontalScore,
      horizontalScoreDetailed_blank_of_not_visible (swapLR lm)
        (Or.inl (by rw [hsw1, hR]; rfl)),
      horizontalScoreDetailed_blank_of_not_visible lm
        (Or.inr (by rw [hR]; rfl))]
  have hswL : swapLR lm L_SHOULDER = some r := hsw1.trans hR
  have hswR : swapLR lm R_SHOULDER = some l := hsw2.trans hL
  rcases hvl : isVisible (some l)
  · rw [horizontalScore, horizontalScore,
      horizontalScoreDetailed_blank_of_not_visible (swapLR lm)
        (Or.inr (by rw [hswR]; exact hvl)),
      horizontalScoreDetailed_blank_of_not_visible lm
        (Or.inl (by rw [hL]; exact hvl))]
  rcases hvr : isVisible (some r)
  · rw [horizontalScore, horizontalScore,
      horizontalScoreDetailed_blank_of_not_visible (swapLR lm)
        (Or.inl (by rw [hswL]; exact hvr)),
      horizontalScoreDetailed_blank_of_not_visible lm
        (Or.inr (by rw [hR]; exact hvr))]
  rcases hfl : isFiniteJS l.z
  · rw [horizontalScore, horizontalScore,
      horizontalScoreDetailed_blank_of_nonfinite (swapLR lm) r l hswL hswR
        (Or.inr hfl),
      horizontalScoreDetailed_blank_of_nonfinite lm l r hL hR (Or.inl hfl)]
  rcases hfr : isFiniteJS r.z
  · rw [horizontalScore, horizontalScore,
      horizontalScoreDetailed_blank_of_nonfinite (swapLR lm) r l hswL hswR
        (Or.inl hfr),
      horizontalScoreDetailed_blank_of_nonfinite lm l r hL hR (Or.inr hfr)]
  rcases hlen : jlt (jhypot (jsub l.x r.x) (jsub l.z r.z)) EPSILON
  case true =>
    rw [horizontalScore, horizontalScore,
      horizontalScoreDetailed_blank_of_degenerate (swapLR lm) r l hswL hswR
        (by rw [jhypot_jsub_comm l.x r.x l.z r.z]; exact hlen),
      horizontalScoreDetailed_blank_of_degenerate lm l r hL hR hlen]
  case false =>
  rw [horizontalScore_main (swapLR lm) r l hswL hswR hvr hvl hfr hfl
      (by rw [jhypot_jsub_comm l.x r.x l.z r.z]; exact hlen),
    horizontalScore_main lm l r hL hR hvl hvr hfl hfr hlen,
    jhypot_jsub_comm l.x r.x l.z r.z, jabs_jsub_comm r.x l.x,
    jabs_jsub_comm (visOrOne r) (visOrOne l)]

/-- C9: swapping which shoulder is stored as left (index 11) and which as
right (index 12) — positions and visibilities together — changes neither
`horizontalScore` nor `shoulderTiltScore`. -/
theorem scores_invariant_under_shoulder_swap (lm : PoseLandmarks) :
    horizontalScore (swapLR lm) = horizontalScore lm ∧
    shoulderTiltScore (swapLR lm) = shoulderTiltScore lm :=
  ⟨horizontalScore_swap lm, shoulderTiltScore_swap lm⟩

/-- A pose that adds a nose landmark (index 0) to `examplePose`. -/
noncomputable def examplePoseWithNose : PoseLandmarks := fun i =>
  if i = 0 then
    some { x := .num 0.5, y := .num 0.2, z := .num 0,
           visibility := some (.num 1) }
  else examplePose i

/-- Witness for C10: the pose with an extra nose landmark scores exactly
like the pose without it. -/
theorem scores_depend_only_on_shoulder_indices_witness :
    horizontalScoreDetailed examplePose =
        horizontalScoreDetailed examplePoseWithNose ∧
    horizontalScore examplePose = horizontalScore examplePoseWithNose ∧
    shoulderTiltScore examplePose = shoulderTiltScore examplePoseWithNose ∧
    shoulderSquareness examplePose = shoulderSquareness examplePoseWithNose ∧
    computeAllMetrics examplePose = computeAllMetrics examplePoseWithNose :=
  scores_depend_only_on_shoulder_indices examplePose examplePoseWithNose
    rfl rfl

/-! ## The tilt metric's full case analysis (claim C5) -/

lemma shoulderTiltScore_formula (lm : PoseLandmarks) (l r : Landmark)
    (lx ly rx ry : ℝ)
    (hL : lm L_SHOULDER = some l) (hR : lm R_SHOULDER = some r)
    (hvl : isVisible (some l) = true) (hvr : isVisible (some r) = true)
    (hlx : l.x = .num lx) (hly : l.y = .num ly)
    (hrx : r.x = .num rx) (hry : r.y = .num ry)
    (hd : ¬(|lx - rx| < 1e-6 ∧ |ly - ry| < 1e-6)) :
    shoulderTiltScore lm =
      .num (1 - ratan2 |ly - ry| |lx - rx| / (Real.pi / 2)) := by
  have hjx : jabs (jsub l.x r.x) = JSNum.num |lx - rx| := by
    rw [hlx, hrx]; simp
  have hjy : jabs (jsub l.y r.y) = JSNum.num |ly - ry| := by
    rw [hly, hry]; simp
  have hd' : ¬(jlt (jabs (jsub l.x r.x)) EPSILON = true ∧
      jlt (jabs (jsub l.y r.y)) EPSILON = true) := by
    rw [hjx, hjy]
    simp only [EPSILON, jlt_num_num, decide_eq_true_eq]
    exact hd
  have hπ := Real.pi_pos
  rw [shoulderTiltScore_main lm l r hL hR hvl hvr hd', hjx, hjy,
    jatan2_num_num, jdiv_num_num_of_ne _ _ (by positivity : Real.pi / 2 ≠ 0),
    jsub_num_num]

/-- C5: `shoulderTiltScore` returns 0 when a shoulder is unusable or when
both |Lx−Rx| < 1e-6 and |Ly−Ry| < 1e-6; otherwise it returns
1 − atan2(|Ly−Ry|, |Lx−Rx|)/(π/2), which is 1 for a horizontal shoulder
line and 0 for a vertical one. -/
theorem shoulderTiltScore_case_analysis (lm : PoseLandmarks) :
    ((isVisible (lm L_SHOULDER) = false ∨ isVisible (lm R_SHOULDER) = false) →
      shoulderTiltScore lm = .num 0) ∧
    (∀ l r, ∀ lx ly rx ry : ℝ,
      lm L_SHOULDER = some l → lm R_SHOULDER = some r →
      isVisible (some l) = true → isVisible (some r) = true →
      l.x = .num lx → l.y = .num ly → r.x = .num rx → r.y = .num ry →
      ((|lx - rx| < 1e-6 ∧ |ly - ry| < 1e-6) → shoulderTiltScore lm = .num 0) ∧
      (¬(|lx - rx| < 1e-6 ∧ |ly - ry| < 1e-6) →
        shoulderTiltScore lm =
          .num (1 - ratan2 |ly - ry| |lx - rx| / (Real.pi / 2))) ∧
      (ly = ry → 1e-6 ≤ |lx - rx| → shoulderTiltScore lm = .num 1) ∧
      (lx = rx → 1e-6 ≤ |ly - ry| → shoulderTiltScore lm = .num 0)) := by
  constructor
  · exact fun h => shoulderTiltScore_zero_of_not_visible lm h
  intro l r lx ly rx ry hL hR hvl hvr hlx hly hrx hry
  have hjx : jabs (jsub l.x r.x) = JSNum.num |lx - rx| := by
    rw [hlx, hrx]; simp
  have hjy : jabs (jsub l.y r.y) = JSNum.num |ly - ry| := by
    rw [hly, hry]; simp
  have hπ := Real.pi_pos
  refine ⟨?_, ?_, ?_, ?_⟩
  · rintro ⟨h1, h2⟩
    exact shoulderTiltScore_zero_of_degenerate lm l r hL hR
      (by rw [hjx]; simp only [EPSILON, jlt_num_num]; exact decide_eq_true h1)
      (by rw [hjy]; simp only [EPSILON, jlt_num_num]; exact decide_eq_true h2)
  · exact shoulderTiltScore_formula lm l r lx ly rx ry hL hR hvl hvr
      hlx hly hrx hry
  · intro hyy hxx
    have hd : ¬(|lx - rx| < 1e-6 ∧ |ly - ry| < 1e-6) :=
      fun hdc => absurd hdc.1 (not_lt.mpr hxx)
    rw [shoulderTiltScore_formula lm l r lx ly rx ry hL hR hvl hvr
      hlx hly hrx hry hd]
    have h0 : |ly - ry| = 0 := by rw [hyy, sub_self, abs_zero]
    have hx0 : (0 : ℝ) < |lx - rx| := lt_of_lt_of_le (by norm_num) hxx
    rw [h0]
    unfold ratan2
    rw [if_pos hx0, zero_div, Real.arctan_zero, zero_div, sub_zero]
  · intro hxx hyy
    have hd : ¬(|lx - rx| < 1e-6 ∧ |ly - ry| < 1e-6) :=
      fun hdc => absurd hdc.2 (not_lt.mpr hyy)
    rw [shoulderTiltScore_formula lm l r lx ly rx ry hL hR hvl hvr
      hlx hly hrx hry hd]
    have h0 : |lx - rx| = 0 := by rw [hxx, sub_self, abs_zero]
    have hy0 : (0 : ℝ) < |ly - ry| := lt_of_lt_of_le (by norm_num) hyy
    rw [h0]
    unfold ratan2
    rw [if_neg (lt_irrefl (0 : ℝ)), if_neg (lt_irrefl (0 : ℝ)), if_pos hy0,
      div_self (show Real.pi / 2 ≠ 0 by positivity)]
    norm_num

/-- Witness for C5: the spec's example pose has a perfectly horizontal
shoulder line, so the tilt score is exactly 1. -/
theorem shoulderTiltScore_case_analysis_witness :
    shoulderTiltScore examplePose = JSNum.num 1 := by
  have h := (shoulderTiltScore_case_analysis examplePose).2 exampleL exampleR
    0.4 0.5 0.6 0.5 rfl rfl
    (isVisible_some_num exampleL 1 rfl (by norm_num))
    (isVisible_some_num exampleR 1 rfl (by norm_num))
    rfl rfl rfl rfl
  exact h.2.2.1 rfl
    (by rw [abs_sub_comm, show (0.6 : ℝ) - 0.4 = 0.2 from by norm_num,
      abs_of_pos (show (0 : ℝ) < 0.2 from by norm_num)]; norm_num)

/-! ## The dx/dz fields of the debug record (claim C8) -/

lemma exampleAbsDx : |(0.4 : ℝ) - 0.6| = 0.2 := by
  rw [abs_sub_comm, show (0.6 : ℝ) - 0.4 = 0.2 from by norm_num,
    abs_of_pos (show (0 : ℝ) < 0.2 from by norm_num)]

lemma exampleSqrtLen :
    Real.sqrt (((0.4 : ℝ) - 0.6) ^ 2 + ((0 : ℝ) - 0) ^ 2) = 0.2 := by
  rw [show ((0.4 : ℝ) - 0.6) ^ 2 + ((0 : ℝ) - 0) ^ 2 = (0.2 : ℝ) ^ 2 from by
      norm_num,
    Real.sqrt_sq (by norm_num : (0 : ℝ) ≤ 0.2)]

lemma examplePose_isVisibleL : isVisible (some exampleL) = true :=
  isVisible_some_num exampleL 1 rfl (by norm_num)

lemma examplePose_isVisibleR : isVisible (some exampleR) = true :=
  isVisible_some_num exampleR 1 rfl (by norm_num)

lemma examplePose_hlen :
    jlt (jhypot (jsub exampleL.x exampleR.x) (jsub exampleL.z exampleR.z))
      EPSILON = false := by
  show jlt (jhypot (jsub (.num 0.4) (.num 0.6)) (jsub (.num 0) (.num 0)))
    EPSILON = false
  simp only [jsub_num_num, jhypot_num_num, EPSILON, jlt_num_num]
  rw [exampleSqrtLen]
  exact decide_eq_false (by norm_num)

/-- Counterexample to C8 as stated: at the spec's own example pose
(L.x = 0.4, R.x = 0.6) the returned `dx` field is the absolute gap 0.2,
not the signed step-3 difference Lx − Rx = −0.2. -/
theorem horizontalScoreDetailed_dx_not_signed :
    (horizontalScoreDetailed examplePose).dx = JSNum.num 0.2 ∧
    (horizontalScoreDetailed examplePose).dx ≠ JSNum.num ((0.4 : ℝ) - 0.6) := by
  have hmain := horizontalScoreDetailed_main examplePose exampleL exampleR
    rfl rfl examplePose_isVisibleL examplePose_isVisibleR rfl rfl
    examplePose_hlen
  rw [hmain]
  constructor
  · show jabs (jsub exampleL.x exampleR.x) = JSNum.num 0.2
    show jabs (jsub (.num 0.4) (.num 0.6)) = JSNum.num 0.2
    rw [jsub_num_num, jabs_num, exampleAbsDx]
  · show jabs (jsub exampleL.x exampleR.x) ≠ JSNum.num ((0.4 : ℝ) - 0.6)
    show jabs (jsub (.num 0.4) (.num 0.6)) ≠ JSNum.num ((0.4 : ℝ) - 0.6)
    rw [jsub_num_num, jabs_num, exampleAbsDx]
    intro hcontra
    injection hcontra with hcontra
    norm_num at hcontra

/-- C8 as amended: in the non-degenerate branch the record's `dx` and `dz`
fields carry the absolute differences |Lx−Rx| and |Lz−Rz| (the step-3
signed differences are taken through `Math.abs` before being returned),
and the score is (|dx| / len) · visSym. -/
theorem horizontalScoreDetailed_fields (lm : PoseLandmarks) (l r : Landmark)
    (lx lz rx rz : ℝ)
    (hL : lm L_SHOULDER = some l) (hR : lm R_SHOULDER = some r)
    (hvl : isVisible (some l) = true) (hvr : isVisible (some r) = true)
    (hlx : l.x = .num lx) (hlz : l.z = .num lz)
    (hrx : r.x = .num rx) (hrz : r.z = .num rz)
    (hlen : 1e-6 ≤ Real.sqrt ((lx - rx) ^ 2 + (lz - rz) ^ 2)) :
    (horizontalScoreDetailed lm).dx = .num |lx - rx| ∧
    (horizontalScoreDetailed lm).dz = .num |lz - rz| ∧
    (horizontalScoreDetailed lm).score =
      jmul (jdiv (.num |lx - rx|)
          (.num (Real.sqrt ((lx - rx) ^ 2 + (lz - rz) ^ 2))))
        (jsub (.num 1) (jabs (jsub (visOrOne l) (visOrOne r)))) := by
  have hfl : isFiniteJS l.z = true := by rw [hlz]; rfl
  have hfr : isFiniteJS r.z = true := by rw [hrz]; rfl
  have hlenb : jlt (jhypot (jsub l.x r.x) (jsub l.z r.z)) EPSILON = false := by
    rw [hlx, hrx, hlz, hrz]
    simp only [jsub_num_num, jhypot_num_num, EPSILON, jlt_num_num]
    exact decide_eq_false (not_lt.mpr hlen)
  rw [horizontalScoreDetailed_main lm l r hL hR hvl hvr hfl hfr hlenb]
  refine ⟨?_, ?_, ?_⟩
  · show jabs (jsub l.x r.x) = JSNum.num |lx - rx|
    rw [hlx, hrx, jsub_num_num, jabs_num]
  · show jabs (jsub l.z r.z) = JSNum.num |lz - rz|
    rw [hlz, hrz, jsub_num_num, jabs_num]
  · show jmul (jdiv (jabs (jsub l.x r.x)) (jhypot (jsub l.x r.x) (jsub l.z r.z)))
        (jsub (.num 1) (jabs (jsub (visOrOne l) (visOrOne r)))) = _
    rw [hlx, hrx, hlz, hrz, jsub_num_num, jsub_num_num, jhypot_num_num,
      jabs_num]

/-! ## Smoother claims (C3, C6) -/

/-- Frame 1: landmark 11 at the origin, fully visible. -/
noncomputable def frameALm : Landmark :=
  { x := .num 0, y := .num 0, z := .num 0, visibility := some (.num 1) }

/-- Frame 2: landmark 11 moved to (1,1,1), visibility dropped to 0.5. -/
noncomputable def frameBLm : Landmark :=
  { x := .num 1, y := .num 1, z := .num 1, visibility := some (.num 0.5) }

noncomputable def frameA : PoseLandmarks := fun i =>
  if i = L_SHOULDER then some frameALm else none

noncomputable def frameB : PoseLandmarks := fun i =>
  if i = L_SHOULDER then some frameBLm else none

/-- Counterexample to C3 as stated: after a reset, feed `frameA`
(visibility 1) and then `frameB` (visibility 0.5) to the smoother.  On the
second update the output visibility of index 11 is still 1 — the previous
smoothed entry's visibility — not the raw frame's 0.5: the loop assigns
only x, y and z, so the raw visibility is never copied onto an existing
entry. -/
theorem smoother_visibility_not_copied :
    (smootherUpdate (some (smootherUpdate none frameA)) frameB
        L_SHOULDER).map Landmark.visibility = some (some (JSNum.num 1)) ∧
    (frameB L_SHOULDER).map Landmark.visibility =
      some (some (JSNum.num 0.5)) ∧
    (JSNum.num 1 : JSNum) ≠ JSNum.num 0.5 := by
  refine ⟨rfl, rfl, ?_⟩
  intro h
  injection h with h
  norm_num at h

/-- C3 as amended: on every update after the first one following a reset,
an index present in the raw frame gets the EMA position
0.2·raw + 0.8·previous on x, y and z; its output visibility is retained
from the previous smoothed entry when one exists (not taken from the raw
frame), and only an index absent from the state copies the raw landmark's
visibility. -/
theorem smoother_ema_step (s raw : PoseLandmarks) (idx : ℕ) (p : Landmark)
    (hp : raw idx = some p) :
    (∀ q, s idx = some q →
      smootherUpdate (some s) raw idx = some
        { x := jadd (jmul (.num 0.2) p.x) (jmul (.num 0.8) q.x),
          y := jadd (jmul (.num 0.2) p.y) (jmul (.num 0.8) q.y),
          z := jadd (jmul (.num 0.2) p.z) (jmul (.num 0.8) q.z),
          visibility := q.visibility }) ∧
    (s idx = none →
      smootherUpdate (some s) raw idx = some
        { x := jadd (jmul (.num 0.2) p.x) (jmul (.num 0.8) p.x),
          y := jadd (jmul (.num 0.2) p.y) (jmul (.num 0.8) p.y),
          z := jadd (jmul (.num 0.2) p.z) (jmul (.num 0.8) p.z),
          visibility := p.visibility }) := by
  have h08 : (1 : ℝ) - SMOOTH_ALPHA = 0.8 := by norm_num [SMOOTH_ALPHA]
  constructor
  · intro q hq
    simp only [smootherUpdate, hp, hq, Option.getD_some, emaLandmark,
      SMOOTH_ALPHA, h08]
    norm_num
  · intro hq
    simp only [smootherUpdate, hp, hq, Option.getD_none, emaLandmark,
      SMOOTH_ALPHA, h08]
    norm_num

/-- Witness for the amended C3: concrete two-frame run; the second update
averages positions with weights 0.2/0.8 and keeps frame 1's visibility. -/
theorem smoother_ema_step_witness :
    smootherUpdate (some frameA) frameB L_SHOULDER = some
      { x := jadd (jmul (.num 0.2) frameBLm.x) (jmul (.num 0.8) frameALm.x),
        y := jadd (jmul (.num 0.2) frameBLm.y) (jmul (.num 0.8) frameALm.y),
        z := jadd (jmul (.num 0.2) frameBLm.z) (jmul (.num 0.8) frameALm.z),
        visibility := frameALm.visibility } :=
  (smoother_ema_step frameA frameB L_SHOULDER frameBLm rfl).1 frameALm rfl

lemma smootherRun_sticky (idx : ℕ) (s : PoseLandmarks)
    (fs : List PoseLandmarks) (h : ∀ f ∈ fs, f idx = none) :
    ∃ s', smootherRun (some s) fs = some s' ∧ s' idx = s idx := by
  induction fs generalizing s with
  | nil => exact ⟨s, rfl, rfl⟩
  | cons f fs ih =>
    obtain ⟨s', hrun, hidx⟩ := ih (smootherUpdate (some s) f)
      (fun g hg => h g (List.mem_cons_of_mem f hg))
    refine ⟨s', hrun, ?_⟩
    rw [hidx]
    simp [smootherUpdate, h f (List.mem_cons_self f fs)]

/-- C6: a landmark index absent from the raw frame is left untouched in
the smoothed state (which is also the output), with no expiry or decay:
an index seen at frame 1 and absent from frames 2..k is still reported at
frame 1's smoothed value after frame k. -/
theorem smoother_absent_index_sticky (idx : ℕ) :
    (∀ s raw : PoseLandmarks, raw idx = none →
      smootherUpdate (some s) raw idx = s idx) ∧
    (∀ (f1 : PoseLandmarks) (fs : List PoseLandmarks),
      (∀ f ∈ fs, f idx = none) →
      ∃ s', smootherRun (some (smootherUpdate none f1)) fs = some s' ∧
        s' idx = f1 idx) := by
  constructor
  · intro s raw h
    simp [smootherUpdate, h]
  · intro f1 fs h
    exact smootherRun_sticky idx (smootherUpdate none f1) fs h

/-- Witness for C6: landmark 11 appears in frame 1, is absent from the next
frame, and is still reported at its frame-1 value. -/
theorem smoother_absent_index_sticky_witness :
    (smootherUpdate (some frameA) emptyPose L_SHOULDER =
      frameA L_SHOULDER) ∧
    ∃ s', smootherRun (some (smootherUpdate none frameA)) [emptyPose] =
        some s' ∧ s' L_SHOULDER = frameA L_SHOULDER :=
  ⟨(smoother_absent_index_sticky L_SHOULDER).1 frameA emptyPose rfl,
    (smoother_absent_index_sticky L_SHOULDER).2 frameA [emptyPose]
      (by intro f hf; rw [List.mem_singleton] at hf; subst hf; rfl)⟩

/-! ## Aggregator claims (C4) -/

lemma observeBuf_append (buf : List ℝ) (v : ℝ) (h : buf.length < BUFFER_SIZE) :
    observeBuf buf v = buf ++ [v] := by
  have hc : ¬ BUFFER_SIZE < (buf ++ [v]).length := by
    simp only [List.length_append, List.length_singleton, BUFFER_SIZE] at *
    omega
  simp only [observeBuf, if_neg hc]

lemma observeBuf_evict (buf : List ℝ) (v : ℝ) (h : buf.length = BUFFER_SIZE) :
    observeBuf buf v = buf.tail ++ [v] := by
  rcases buf with _ | ⟨a, t⟩
  · simp [BUFFER_SIZE] at h
  · have hc : BUFFER_SIZE < (a :: (t ++ [v])).length := by
      simp only [List.length_cons, List.length_append, List.length_singleton,
        BUFFER_SIZE] at h ⊢
      omega
    simp only [observeBuf, List.cons_append, List.tail_cons, if_pos hc]

lemma observeBuf_foldl (vs : List ℝ) :
    ∀ buf : List ℝ, buf.length ≤ BUFFER_SIZE →
      vs.foldl observeBuf buf =
        (buf ++ vs).drop (buf.length + vs.length - BUFFER_SIZE) := by
  induction vs with
  | nil =>
    intro buf h
    simp only [List.foldl_nil, List.append_nil, List.length_nil, Nat.add_zero]
    rw [Nat.sub_eq_zero_of_le h, List.drop_zero]
  | cons v vs ih =>
    intro buf h
    simp only [List.foldl_cons]
    by_cases hlt : buf.length < BUFFER_SIZE
    · rw [observeBuf_append buf v hlt, ih (buf ++ [v]) (by
        simp only [List.length_append, List.length_singleton, BUFFER_SIZE]
          at hlt ⊢
        omega)]
      rw [List.append_assoc, List.singleton_append]
      congr 1
      simp only [List.length_append, List.length_singleton, List.length_cons,
        List.length_nil, Nat.zero_add, BUFFER_SIZE]
      omega
    · have heq : buf.length = BUFFER_SIZE := le_antisymm h (not_lt.mp hlt)
      rw [observeBuf_evict buf v heq, ih (buf.tail ++ [v]) (by
        simp only [List.length_append, List.length_singleton,
          List.length_tail, BUFFER_SIZE] at heq ⊢
        omega)]
      rcases buf with _ | ⟨a, t⟩
      · simp [BUFFER_SIZE] at heq
      · have ht : t.length = 29 := by
          simp only [List.length_cons, BUFFER_SIZE] at heq
          omega
        simp only [List.tail_cons, List.length_append, List.length_singleton,
          List.length_cons, List.length_nil, Nat.zero_add, List.cons_append,
          ht, BUFFER_SIZE]
        rw [show 29 + 1 + vs.length - 30 = vs.length from by omega,
          show 29 + 1 + (vs.length + 1) - 30 = vs.length + 1 from by omega,
          List.drop_succ_cons, List.append_assoc, List.singleton_append]

lemma observe_foldl_map (k : String) (vs : List ℝ) :
    ∀ (m : ScoreBuffers) (acc : List ℝ), m k = some acc →
      (vs.foldl (fun b v => observe b k v) m) k =
        some (vs.foldl observeBuf acc) := by
  induction vs with
  | nil =>
    intro m acc hm
    simpa using hm
  | cons v vs ih =>
    intro m acc hm
    simp only [List.foldl_cons]
    exact ih (observe m k v) (observeBuf acc v) (by simp [observe, hm])

/-- C4: feeding 40 samples for one metric name into the empty aggregator
leaves that metric's buffer at exactly 30 entries equal to samples 11..40
(the last 30), whose mean is their arithmetic average; each observe
appends the new value, and evicts the oldest entry exactly when the length
would exceed 30. -/
theorem aggregator_window (k : String) (vs : List ℝ)
    (h40 : vs.length = 40) :
    (∀ (buf : List ℝ) (v : ℝ), buf.length < BUFFER_SIZE →
      observeBuf buf v = buf ++ [v]) ∧
    (∀ (buf : List ℝ) (v : ℝ), buf.length = BUFFER_SIZE →
      observeBuf buf v = buf.tail ++ [v]) ∧
    ∃ arr, (vs.foldl (fun b v => observe b k v) emptyBufs) k = some arr ∧
      arr.length = 30 ∧ arr = vs.drop 10 ∧
      aggMean arr = ((vs.drop 10).foldl (fun a b => a + b) 0) / 30 := by
  refine ⟨observeBuf_append, observeBuf_evict, ?_⟩
  rcases hvs : vs with _ | ⟨v0, rest⟩
  · rw [hvs] at h40
    simp at h40
  have hrest : rest.length = 39 := by
    rw [hvs] at h40
    simpa using h40
  subst hvs
  have hfirst : (observe emptyBufs k v0) k = some [v0] := by
    simp [observe, emptyBufs, observeBuf, BUFFER_SIZE]
  have hmap := observe_foldl_map k rest (observe emptyBufs k v0) [v0] hfirst
  have hfold := observeBuf_foldl rest [v0] (by simp [BUFFER_SIZE])
  simp only [List.length_singleton, hrest] at hfold
  refine ⟨(v0 :: rest).drop 10, ?_, ?_, rfl, ?_⟩
  · rw [List.foldl_cons, hmap, hfold]
    norm_num [List.singleton_append, BUFFER_SIZE]
  · rw [List.length_drop, List.length_cons, hrest]
  · have hlen : ((v0 :: rest).drop 10).length = 30 := by
      rw [List.length_drop, List.length_cons, hrest]
    rw [aggMean, hlen]
    norm_num

/-- Witness for C4: forty concrete samples 0, 1, ..., 39. -/
theorem aggregator_window_witness :
    ∃ arr, ((List.map (Nat.cast : ℕ → ℝ) (List.range 40)).foldl
        (fun b v => observe b "horizontalScore" v) emptyBufs)
          "horizontalScore" = some arr ∧
      arr.length = 30 ∧
      arr = (List.map (Nat.cast : ℕ → ℝ) (List.range 40)).drop 10 ∧
      aggMean arr =
        (((List.map (Nat.cast : ℕ → ℝ) (List.range 40)).drop 10).foldl
          (fun a b => a + b) 0) / 30 :=
  (aggregator_window "horizontalScore"
    (List.map (Nat.cast : ℕ → ℝ) (List.range 40))
    (by rw [List.length_map, List.length_range])).2.2

/-- Witness for the amended C8 at the spec's example pose. -/
theorem horizontalScoreDetailed_fields_witness :
    (horizontalScoreDetailed examplePose).dx = .num |(0.4 : ℝ) - 0.6| ∧
    (horizontalScoreDetailed examplePose).dz = .num |(0 : ℝ) - 0| ∧
    (horizontalScoreDetailed examplePose).score =
      jmul (jdiv (.num |(0.4 : ℝ) - 0.6|)
          (.num (Real.sqrt (((0.4 : ℝ) - 0.6) ^ 2 + ((0 : ℝ) - 0) ^ 2))))
        (jsub (.num 1) (jabs (jsub (visOrOne exampleL) (visOrOne exampleR)))) :=
  horizontalScoreDetailed_fields examplePose exampleL exampleR 0.4 0 0.6 0
    rfl rfl examplePose_isVisibleL examplePose_isVisibleR rfl rfl rfl rfl
    (by rw [exampleSqrtLen]; norm_num)
